import Mathlib

/-!
Verification of the AI-assistant handler (redash/handlers/ai_assistant.py).

The Python module is shallowly embedded: Python strings are Lean `String`
(a wrapper around `List Char`; the ASCII character model is used for
case conversion and alphanumeric tests), Python dicts holding known keys
become structures with `Option` fields, fallible Python code returns
`Except String`, and the external query runner is an explicit function
parameter.  Invocations of the external query-execution source are made
observable through an explicit log of the query strings handed to the
runner.
-/

namespace RedashAI

/-- Python `str.upper` in the ASCII character model. -/
def pyUpper (s : String) : String := String.mk (s.toList.map Char.toUpper)

/-- Python `str.startswith`. -/
def pyStartsWith (s pre : String) : Bool := pre.toList.isPrefixOf s.toList

/-- Substring search over character lists (Python's `in` operator on `str`). -/
def subSearch : List Char → List Char → Bool
  | needle, [] => needle.isEmpty
  | needle, h :: t => needle.isPrefixOf (h :: t) || subSearch needle t

/-- Python `needle in hay` for strings. -/
def pyContains (hay needle : String) : Bool := subSearch needle.toList hay.toList

/-- Python `str.strip()`: drop whitespace from both ends. -/
def pyStrip (s : String) : String :=
  String.mk (((s.toList.dropWhile Char.isWhitespace).reverse.dropWhile
    Char.isWhitespace).reverse)

/-- Python `str.isalnum()` in the ASCII model: nonempty and all alphanumeric. -/
def pyIsAlnum (s : String) : Bool :=
  !s.toList.isEmpty && s.toList.all Char.isAlphanum

/-- `table_name.replace("_", "").replace(".", "")` from `_tool_get_sample_data`. -/
def removeUnderscoreDot (s : String) : String :=
  String.mk ((s.toList.filter (fun c => c != '_')).filter (fun c => c != '.'))

/-- The sanitization test of `_tool_get_sample_data` (line 457):
`table_name.replace("_", "").replace(".", "").isalnum()`. -/
def sanitizedOk (s : String) : Bool := pyIsAlnum (removeUnderscoreDot s)

/-- Limit injection of `_tool_execute_query` (lines 469-472):
if `"LIMIT" not in query.upper() and query.upper().startswith("SELECT")`,
append `" LIMIT 100"`. -/
def tool_enforce_limit (q : String) : String :=
  let qU := pyUpper q
  if !(pyContains qU "LIMIT") && pyStartsWith qU "SELECT" then q ++ " LIMIT 100"
  else q

/-- Limit injection of `AIAssistantExecuteQueryResource.post` (lines 186-189),
textually the same computation as the tool path. -/
def endpoint_enforce_limit (q : String) : String :=
  let qU := pyUpper q
  if !(pyContains qU "LIMIT") && pyStartsWith qU "SELECT" then q ++ " LIMIT 100"
  else q

/-- Whitespace word splitter, accumulator-style. -/
def specWordsAux : List Char → List Char → List String
  | [], acc => if acc.isEmpty then [] else [String.mk acc.reverse]
  | c :: cs, acc =>
    if c.isWhitespace then
      if acc.isEmpty then specWordsAux cs []
      else String.mk acc.reverse :: specWordsAux cs []
    else specWordsAux cs (c :: acc)

/-- Whitespace-separated words of a string (used only to state the spec's
notion of a `LIMIT` token, which the source does not implement). -/
def specWords (s : String) : List String := specWordsAux s.toList []

/-- The spec's reading of "contains a LIMIT token": some whitespace-separated
word of the upper-cased query is exactly `LIMIT`. -/
def specHasLimitToken (q : String) : Bool := (specWords (pyUpper q)).contains "LIMIT"

/-- The spec's table-name pattern `^[A-Za-z0-9_.]+$` (ASCII model). -/
def specTablePattern (s : String) : Bool :=
  !s.toList.isEmpty && s.toList.all (fun c => c.isAlphanum || c == '_' || c == '.')

/-! ## Query results and the external runner -/

/-- Rows are opaque to this module; only their identity and count matter. -/
abbrev Row := Nat

/-- The dict produced by the query runner (after an eventual `json.loads`):
only the `rows` and `truncated` keys are inspected by the handler. -/
structure PyData where
  rows : Option (List Row) := none
  truncated : Option Bool := none
deriving DecidableEq

/-- The `data` half of the runner's return value: either an object, or a
string that `json.loads` either parses or fails on (raising). -/
inductive RData
  | strData (parsed : Except String PyData)
  | objData (d : PyData)

/-- The external query-execution source: takes the query text and either
raises (`Except.error`) or returns the Python pair `(data, error)`. -/
abbrev Runner := String → Except String (RData × Option String)

/-- Result-size truncation of `_run_query` (lines 488-494):
`if "rows" in data and len(data["rows"]) > 100`, keep the first 100 rows
and set `truncated = True`. -/
def truncateTool (d : PyData) : PyData :=
  match d.rows with
  | some rs =>
    if rs.length > 100 then { d with rows := some (rs.take 100), truncated := some true }
    else d
  | none => d

/-- Result-size truncation of `AIAssistantExecuteQueryResource.post`
(lines 201-207), textually the same computation as the tool path. -/
def endpoint_truncate (d : PyData) : PyData :=
  match d.rows with
  | some rs =>
    if rs.length > 100 then { d with rows := some (rs.take 100), truncated := some true }
    else d
  | none => d

/-- The dict a tool handler returns to the dispatcher. -/
inductive ToolOutcome
  | err (msg : String)
  | requiresApproval (query purpose : String)
  | rejectedQ (message : String)
  | dataOut (d : PyData)
  | tablesBrief (ts : List (Option String × Nat))
  | tablesFull (ts : List (Option String × List (String × String)))
deriving DecidableEq

/-- Python truthiness of the runner's `error` component (`if error:`). -/
def truthyStr : Option String → Bool
  | none => false
  | some s => !s.isEmpty

/-- Body of `_run_query` (lines 476-494) before its `except` clause: raise
sites (the runner itself and `json.loads`) propagate as `Except.error`. -/
def run_query_body (query : String) (runner : Runner) : Except String ToolOutcome := do
  let r ← runner query
  if truthyStr r.2 then pure (ToolOutcome.err (r.2.getD ""))
  else
    match r.1 with
    | RData.strData parsed => do
      let d ← parsed
      pure (ToolOutcome.dataOut (truncateTool d))
    | RData.objData d => pure (ToolOutcome.dataOut (truncateTool d))

/-- `_run_query` with its `except Exception` clause; the second component
logs the query handed to the external runner (the runner is always invoked
exactly once when `_run_query` is reached). -/
def run_query (query : String) (runner : Runner) : ToolOutcome × List String :=
  (match run_query_body query runner with
   | Except.ok o => o
   | Except.error e => ToolOutcome.err e,
   [query])

/-! ## Tool inputs and handlers -/

/-- The `tool_input` dict, with the keys the three tools read. -/
structure ToolInput where
  query : Option String := none
  purpose : Option String := none
  table_name : Option String := none
  tables : Option (List String) := none
deriving DecidableEq

/-- `_tool_get_sample_data` (lines 450-461). -/
def tool_get_sample_data (input : ToolInput) (runner : Runner) :
    ToolOutcome × List String :=
  let tn := input.table_name.getD ""
  if tn.isEmpty then (ToolOutcome.err "table_name is required", [])
  else if !(sanitizedOk tn) then (ToolOutcome.err "Invalid table name", [])
  else run_query ("SELECT * FROM " ++ tn ++ " LIMIT 5") runner

/-- `_tool_execute_query` (lines 463-474). -/
def tool_execute_query (input : ToolInput) (runner : Runner) :
    ToolOutcome × List String :=
  let query := pyStrip (input.query.getD "")
  if query.isEmpty then (ToolOutcome.err "query is required", [])
  else run_query (tool_enforce_limit query) runner

/-! ## Schema shapes and rendering -/

/-- The type-info value of a mapping-shaped column entry (`col_info`). -/
structure ColInfo where
  ctype : Option String := none
deriving DecidableEq

/-- One entry of a list-shaped `columns` value: a plain name string or a
name/type record. -/
inductive ColEntry
  | strCol (s : String)
  | recCol (cname : Option String) (ctype : Option String)
deriving DecidableEq

/-- The three run-time shapes of a table's `columns` value; anything else
(`otherCols`, tagged with its Python type name) renders as no columns and
has no `len()`. -/
inductive Columns
  | dictCols (l : List (String × ColInfo))
  | listCols (l : List ColEntry)
  | otherCols (typeName : String)
deriving DecidableEq

/-- One table of the cached schema. -/
structure STable where
  name? : Option String := none
  columns : Columns := Columns.listCols []
deriving DecidableEq

/-- The `col_list` built by `format_schema_for_context` (lines 107-118). -/
def colListFmt : Columns → List String
  | Columns.dictCols l => l.map (fun p => p.1 ++ " (" ++ (p.2.ctype.getD "?") ++ ")")
  | Columns.listCols l =>
    l.map (fun c =>
      match c with
      | ColEntry.strCol s => s
      | ColEntry.recCol n t => (n.getD "?") ++ " (" ++ (t.getD "?") ++ ")")
  | Columns.otherCols _ => []

/-- One line of `format_schema_for_context` (lines 120-122). -/
def formatTableLine (t : STable) : String :=
  let colList := colListFmt t.columns
  let line := "- " ++ (t.name?.getD "unknown") ++ ": " ++
    String.intercalate ", " (colList.take 10)
  if colList.length > 10 then
    line ++ " ... and " ++ toString (colList.length - 10) ++ " more columns"
  else line

/-- `format_schema_for_context` (lines 97-124). -/
def format_schema_for_context (schema : List STable) : String :=
  if schema.isEmpty then "No schema available."
  else String.intercalate "\n" (schema.map formatTableLine)

/-- The `col_list` of `{name, type}` pairs built by `_tool_get_schema`
(lines 424-441). -/
def colPairsTool : Columns → List (String × String)
  | Columns.dictCols l => l.map (fun p => (p.1, p.2.ctype.getD "unknown"))
  | Columns.listCols l =>
    l.map (fun c =>
      match c with
      | ColEntry.strCol s => (s, "unknown")
      | ColEntry.recCol n t => (n.getD "unknown", t.getD "unknown"))
  | Columns.otherCols _ => []

/-- Python `len(columns)`: defined for dicts and lists, raises `TypeError`
on any other value. -/
def columnsLenE : Columns → Except String Nat
  | Columns.dictCols l => Except.ok l.length
  | Columns.listCols l => Except.ok l.length
  | Columns.otherCols t => Except.error ("object of type '" ++ t ++ "' has no len()")

/-- `_tool_get_schema` (lines 407-448); raise sites propagate. -/
def tool_get_schema (input : ToolInput) (schema : List STable) :
    Except String ToolOutcome :=
  let requested := input.tables.getD []
  if requested.isEmpty then do
    let briefs ← schema.mapM (fun t => do
      let n ← columnsLenE t.columns
      pure (t.name?, n))
    pure (ToolOutcome.tablesBrief briefs)
  else
    pure (ToolOutcome.tablesFull
      ((schema.filter (fun t =>
          match t.name? with
          | some n => requested.contains n
          | none => false)).map
        (fun t => (t.name?, colPairsTool t.columns))))

/-! ## Tool dispatch -/

/-- Body of `_execute_tool` (lines 377-405) before its `except` clause.
`approvals` is the `pending_approvals` mapping (`[]` models both `None`
and the empty dict — the Python guard `if pending_approvals and query in
pending_approvals` collapses to an association-list lookup); a `none`
value is Python `None`, i.e. a rejected query. -/
def execute_tool_body (name : String) (input : ToolInput) (schema : List STable)
    (approvals : List (String × Option String)) (runner : Runner) :
    Except String (ToolOutcome × List String) :=
  if name = "get_schema" then do
    let o ← tool_get_schema input schema
    pure (o, [])
  else if name = "get_sample_data" then
    pure (tool_get_sample_data input runner)
  else if name = "execute_query" then
    let query := pyStrip (input.query.getD "")
    match approvals.lookup query with
    | some approvedQ =>
      match approvedQ with
      | none => pure (ToolOutcome.rejectedQ "User rejected this query execution.", [])
      | some approved => pure (tool_execute_query { query := some approved } runner)
    | none =>
      pure (ToolOutcome.requiresApproval query
        (input.purpose.getD "Verify query results"), [])
  else
    pure (ToolOutcome.err ("Unknown tool: " ++ name), [])

/-- `_execute_tool` with its `except Exception` boundary: a raise from the
body surfaces as an `{error: str(e)}` result. -/
def execute_tool (name : String) (input : ToolInput) (schema : List STable)
    (approvals : List (String × Option String)) (runner : Runner) :
    ToolOutcome × List String :=
  match execute_tool_body name input schema approvals runner with
  | Except.ok r => r
  | Except.error e => (ToolOutcome.err e, [])

/-! ## The streaming orchestrator (post-stream portion of `generate`) -/

/-- Token usage of a finalized model turn. -/
structure Usage where
  input_tokens : Nat
  output_tokens : Nat
deriving DecidableEq

/-- A content block of a finalized model turn. -/
inductive CBlock
  | text (s : String)
  | toolUse (id : String) (name : String) (input : ToolInput)
deriving DecidableEq

/-- A finalized model turn (`stream.get_final_message()`). -/
structure ModelTurn where
  content : List CBlock
  usage : Usage
deriving DecidableEq

/-- A tool call extracted from a turn. -/
structure TCall where
  id : String
  name : String
  input : ToolInput
deriving DecidableEq

/-- The role of a conversation message. -/
inductive Role
  | user
  | assistant
deriving DecidableEq

/-- One `tool_result` block appended to the follow-up user message. -/
structure ToolResultBlock where
  tool_use_id : String
  content : ToolOutcome
deriving DecidableEq

/-- Content of a conversation message: model content blocks, or the list of
tool-result blocks of the follow-up user message. -/
inductive MsgContent
  | blocks (l : List CBlock)
  | toolResults (l : List ToolResultBlock)
deriving DecidableEq

/-- A conversation message. -/
structure Message where
  role : Role
  content : MsgContent
deriving DecidableEq

/-- An SSE protocol event emitted by `generate`. -/
inductive Event
  | toolStart (tool : String) (id : String)
  | textDelta (s : String)
  | toolResult (tool : String) (result : ToolOutcome)
  | doneEv (usage : Usage)
  | errorEv (message : String)
deriving DecidableEq

/-- `tool_calls = [block for block in final_message.content if block.type ==
"tool_use"]` (lines 312-315). -/
def turnToolCalls (t : ModelTurn) : List TCall :=
  t.content.filterMap (fun b =>
    match b with
    | CBlock.toolUse i n inp => some ⟨i, n, inp⟩
    | _ => none)

/-- The dispatch performed by the streaming loop (lines 330-335):
`self._execute_tool(tool_call.name, tool_call.input, data_source, schema)`
— `pending_approvals` is left at its default `None`. -/
def loopDispatch (schema : List STable) (runner : Runner) (c : TCall) :
    ToolOutcome × List String :=
  execute_tool c.name c.input schema [] runner

/-- Result of processing one finalized turn. -/
structure TurnResult where
  events : List Event
  msgs : List Message
  log : List String
  cont : Bool
deriving DecidableEq

/-- Lines 308-354 of `generate`: evaluate a finalized turn.  With no tool
calls, emit `done` and stop; otherwise dispatch each call in order, emit a
`tool_result` event per call, and append the assistant turn plus one user
message of tool-result blocks. -/
def processTurn (schema : List STable) (runner : Runner) (turn : ModelTurn)
    (msgs : List Message) : TurnResult :=
  let calls := turnToolCalls turn
  if calls.isEmpty then
    ⟨[Event.doneEv turn.usage], msgs, [], false⟩
  else
    let results := calls.map (fun c => (c, loopDispatch schema runner c))
    ⟨results.map (fun p => Event.toolResult p.1.name p.2.1),
     msgs ++ [⟨Role.assistant, MsgContent.blocks turn.content⟩,
              ⟨Role.user, MsgContent.toolResults
                (results.map (fun p => ⟨p.1.id, p.2.1⟩))⟩],
     (results.map (fun p => p.2.2)).flatten,
     true⟩

/-- The `while True` loop of `generate`, driven by the (externally supplied)
sequence of finalized model turns. -/
def genLoop (schema : List STable) (runner : Runner) :
    List ModelTurn → List Message → List Event × List Message × List String
  | [], msgs => ([], msgs, [])
  | turn :: rest, msgs =>
    let r := processTurn schema runner turn msgs
    if r.cont then
      let r2 := genLoop schema runner rest r.msgs
      (r.events ++ r2.1, r2.2.1, r.log ++ r2.2.2)
    else (r.events, r.msgs, r.log)

/-! ## JSON serialization and SSE framing -/

mutual
/-- A Python value handed to `json.dumps`.  Standard JSON values are the
first six constructors (numbers are carried by their rendered text);
`jdatetime`, `jdate` and `jdecimal` model the objects `json_serializer`
converts (a datetime or date carries the text its `isoformat()` produces,
a `Decimal` carries the text `json` prints for `float(obj)`); `jother` is
any other non-serializable object, tagged with its Python type name. -/
inductive JVal
  | jnull
  | jbool (b : Bool)
  | jnum (rep : String)
  | jstr (s : String)
  | jarr (l : JArr)
  | jobj (o : JObj)
  | jdatetime (iso : String)
  | jdate (iso : String)
  | jdecimal (floatRep : String)
  | jother (typeName : String)

/-- A JSON array payload. -/
inductive JArr
  | nil
  | cons (v : JVal) (tl : JArr)

/-- A JSON object payload (ordered key/value pairs, as a Python dict). -/
inductive JObj
  | nil
  | cons (k : String) (v : JVal) (tl : JObj)
end

/-- `json_serializer` (lines 16-22): the `default` callback of `json.dumps`. -/
def json_serializer : JVal → Except String JVal
  | JVal.jdatetime iso => Except.ok (JVal.jstr iso)
  | JVal.jdate iso => Except.ok (JVal.jstr iso)
  | JVal.jdecimal r => Except.ok (JVal.jnum r)
  | JVal.jother t =>
    Except.error ("Object of type " ++ t ++ " is not JSON serializable")
  | JVal.jnull => Except.error "Object of type NoneType is not JSON serializable"
  | JVal.jbool _ => Except.error "Object of type bool is not JSON serializable"
  | JVal.jnum _ => Except.error "Object of type float is not JSON serializable"
  | JVal.jstr _ => Except.error "Object of type str is not JSON serializable"
  | JVal.jarr _ => Except.error "Object of type list is not JSON serializable"
  | JVal.jobj _ => Except.error "Object of type dict is not JSON serializable"

/-- JSON string-literal escaping (the cases relevant to this module). -/
def jescapeChar (c : Char) : String :=
  if c = '"' then "\\\""
  else if c = '\\' then "\\\\"
  else if c = '\n' then "\\n"
  else if c = '\t' then "\\t"
  else if c = '\r' then "\\r"
  else String.mk [c]

/-- A JSON string literal (`ensure_ascii=False`). -/
def jstrLit (s : String) : String :=
  "\"" ++ String.join (s.toList.map jescapeChar) ++ "\""

mutual
/-- `json.dumps(data, ensure_ascii=False, default=json_serializer)`.
On the three non-standard types handled by `json_serializer` the callback's
return value is serialized in place; on any other non-serializable value
the callback's `TypeError` propagates. -/
def jsonDumps : JVal → Except String String
  | JVal.jnull => Except.ok "null"
  | JVal.jbool b => Except.ok (if b then "true" else "false")
  | JVal.jnum rep => Except.ok rep
  | JVal.jstr s => Except.ok (jstrLit s)
  | JVal.jarr l => do
    let parts ← jsonDumpsArr l
    Except.ok ("[" ++ String.intercalate ", " parts ++ "]")
  | JVal.jobj o => do
    let parts ← jsonDumpsObj o
    Except.ok ("\x7b" ++ String.intercalate ", " parts ++ "\x7d")
  | JVal.jdatetime iso => Except.ok (jstrLit iso)
  | JVal.jdate iso => Except.ok (jstrLit iso)
  | JVal.jdecimal r => Except.ok r
  | JVal.jother t =>
    Except.error ("Object of type " ++ t ++ " is not JSON serializable")

/-- Serialize the elements of a JSON array. -/
def jsonDumpsArr : JArr → Except String (List String)
  | JArr.nil => Except.ok []
  | JArr.cons v tl => do
    let s ← jsonDumps v
    let rest ← jsonDumpsArr tl
    Except.ok (s :: rest)

/-- Serialize the entries of a JSON object. -/
def jsonDumpsObj : JObj → Except String (List String)
  | JObj.nil => Except.ok []
  | JObj.cons k v tl => do
    let s ← jsonDumps v
    let rest ← jsonDumpsObj tl
    Except.ok ((jstrLit k ++ ": " ++ s) :: rest)
end

mutual
/-- A value is JSON-serializable under `json_serializer` exactly when it
contains no `jother` node. -/
def noOther : JVal → Bool
  | JVal.jarr l => noOtherArr l
  | JVal.jobj o => noOtherObj o
  | JVal.jother _ => false
  | _ => true

/-- `noOther` over array elements. -/
def noOtherArr : JArr → Bool
  | JArr.nil => true
  | JArr.cons v tl => noOther v && noOtherArr tl

/-- `noOther` over object entries. -/
def noOtherObj : JObj → Bool
  | JObj.nil => true
  | JObj.cons _ v tl => noOther v && noOtherObj tl
end

/-- `create_sse_event` (lines 92-94). -/
def create_sse_event (event_type : String) (data : JVal) : Except String String :=
  match jsonDumps data with
  | Except.ok j =>
    Except.ok ("event: " ++ event_type ++ "\ndata: " ++ j ++ "\n\n")
  | Except.error e => Except.error e

/-! ## Helper lemmas -/

theorem toList_mk (l : List Char) : (String.mk l).toList = l := rfl

theorem subSearch_iff (needle l : List Char) :
    subSearch needle l = true ↔ needle <:+: l := by
  induction l with
  | nil =>
    simp [subSearch, List.isEmpty_iff]
  | cons h t ih =>
    rw [subSearch, List.infix_cons_iff]
    simp [ih]

/-- A concrete runner used by closed witnesses: returns an empty result. -/
def demoRunner : Runner := fun _ => Except.ok (RData.objData {}, none)

/-- A concrete runner used by closed witnesses: always raises. -/
def raisingRunner : Runner := fun _ => Except.error "boom"

theorem sanitizedOk_ne_empty {tn : String} (h : sanitizedOk tn = true) :
    tn.isEmpty = false := by
  have hl : tn.toList ≠ [] := by
    intro he
    rw [sanitizedOk, pyIsAlnum, removeUnderscoreDot, toList_mk, he] at h
    simp at h
  cases hb : tn.isEmpty
  · rfl
  · exact absurd (congrArg String.toList ((String.isEmpty_iff tn).mp hb)) hl

theorem sanitizedOk_iff (tn : String) :
    sanitizedOk tn = true ↔
      (specTablePattern tn = true ∧ tn.toList.any Char.isAlphanum = true) := by
  rw [sanitizedOk, pyIsAlnum, removeUnderscoreDot, toList_mk, specTablePattern]
  simp only [Bool.and_eq_true, Bool.not_eq_true', List.isEmpty_eq_false,
    List.all_eq_true, List.any_eq_true, List.mem_filter,
    bne_iff_ne, ne_eq, Bool.or_eq_true, beq_iff_eq]
  constructor
  · rintro ⟨hne, hall⟩
    rcases List.exists_mem_of_ne_nil _ hne with ⟨c, hc⟩
    rcases List.mem_filter.mp hc with ⟨hc1, hc2⟩
    rcases List.mem_filter.mp hc1 with ⟨hcl, hc4⟩
    have hcu : ¬ c = '_' := by simpa using hc4
    have hcd : ¬ c = '.' := by simpa using hc2
    refine ⟨⟨?_, ?_⟩, ?_⟩
    · intro hnil
      rw [hnil] at hcl
      exact absurd hcl (List.not_mem_nil c)
    · intro a ha
      by_cases h1 : a = '_'
      · exact Or.inl (Or.inr h1)
      · by_cases h2 : a = '.'
        · exact Or.inr h2
        · exact Or.inl (Or.inl (hall a ⟨⟨ha, h1⟩, h2⟩))
    · exact ⟨c, hcl, hall c ⟨⟨hcl, hcu⟩, hcd⟩⟩
  · rintro ⟨⟨hne, hall⟩, c, hcl, hca⟩
    have hcu : ¬ c = '_' := by
      intro he; rw [he] at hca; simp at hca
    have hcd : ¬ c = '.' := by
      intro he; rw [he] at hca; simp at hca
    constructor
    · exact List.ne_nil_of_mem
        (List.mem_filter.mpr ⟨List.mem_filter.mpr ⟨hcl, by simpa using hcu⟩,
          by simpa using hcd⟩)
    · intro a ha
      rcases ha with ⟨⟨ha3, ha4⟩, ha2⟩
      rcases hall a ha3 with h | h
      · rcases h with h | h
        · exact h
        · exact absurd h ha4
      · exact absurd h ha2

/-! ## Claims -/

/-- C2 counterexample: the query `select limitless` begins with `select`,
contains no `LIMIT` token (no whitespace-separated word of its upper-cased
form is `LIMIT`), yet the limit-injection step returns it unchanged instead
of appending ` LIMIT 100` — the code tests for the substring `LIMIT`, which
occurs inside `LIMITLESS`. -/
theorem C2_limit_token_counterexample :
    pyStartsWith (pyUpper "select limitless") "SELECT" = true ∧
    specHasLimitToken "select limitless" = false ∧
    tool_enforce_limit "select limitless" = "select limitless" ∧
    "select limitless" ≠ "select limitless" ++ " LIMIT 100" := by
  refine ⟨by decide, by decide, by decide, by decide⟩

/-- C2 (amended): for every query whose upper-cased form begins with
`SELECT` and does not contain the substring `LIMIT`, exactly ` LIMIT 100`
is appended; if the substring occurs anywhere, or the query does not begin
with `SELECT` (any case), the query is unchanged; the streaming tool path
and the synchronous endpoint compute identically; and the boolean tests
coincide with the propositional prefix/infix characterizations. -/
theorem C2_limit_injection_amended (q : String) :
    (pyStartsWith (pyUpper q) "SELECT" = true →
      pyContains (pyUpper q) "LIMIT" = false →
      tool_enforce_limit q = q ++ " LIMIT 100") ∧
    (pyContains (pyUpper q) "LIMIT" = true ∨
        pyStartsWith (pyUpper q) "SELECT" = false →
      tool_enforce_limit q = q) ∧
    endpoint_enforce_limit q = tool_enforce_limit q ∧
    (pyContains (pyUpper q) "LIMIT" = true ↔
      "LIMIT".toList <:+: (pyUpper q).toList) ∧
    (pyStartsWith (pyUpper q) "SELECT" = true ↔
      "SELECT".toList <+: (pyUpper q).toList) := by
  refine ⟨?_, ?_, rfl, ?_, ?_⟩
  · intro hs hc
    simp [tool_enforce_limit, hs, hc]
  · intro h
    rcases h with h | h <;> simp [tool_enforce_limit, h]
  · exact subSearch_iff _ _
  · simp [pyStartsWith]

/-- C2 witness: the amended theorem applied to `select 1` (appended) and to
`SELECT * FROM t LIMIT 5` (unchanged). -/
theorem C2_limit_injection_amended_witness :
    tool_enforce_limit "select 1" = "select 1" ++ " LIMIT 100" ∧
    tool_enforce_limit "SELECT * FROM t LIMIT 5" = "SELECT * FROM t LIMIT 5" :=
  ⟨(C2_limit_injection_amended "select 1").1 (by decide) (by decide),
   (C2_limit_injection_amended "SELECT * FROM t LIMIT 5").2.1 (Or.inl (by decide))⟩

/-- C3 counterexample: the table name `_` matches the spec's pattern
`^[A-Za-z0-9_.]+$`, yet `get_sample_data` rejects it with
`{error: "Invalid table name"}` — after stripping underscores and dots the
remainder is empty and Python's `isalnum` is false on the empty string. -/
theorem C3_table_pattern_counterexample :
    specTablePattern "_" = true ∧
    tool_get_sample_data { table_name := some "_" } demoRunner =
      (ToolOutcome.err "Invalid table name", []) := by
  refine ⟨by decide, by decide⟩

/-- C3 (amended): `get_sample_data` accepts a table name exactly when it
matches `^[A-Za-z0-9_.]+$` AND contains at least one alphanumeric character
(ASCII model); accepted names are queried via `SELECT * FROM <name> LIMIT 5`,
rejected nonempty names yield `{error: "Invalid table name"}` with the data
source never contacted, and the empty name yields the required-field error. -/
theorem C3_sanitization_amended (tn : String) (runner : Runner) :
    tool_get_sample_data { table_name := some "" } runner =
      (ToolOutcome.err "table_name is required", []) ∧
    (tn ≠ "" → sanitizedOk tn = false →
      tool_get_sample_data { table_name := some tn } runner =
        (ToolOutcome.err "Invalid table name", [])) ∧
    (sanitizedOk tn = true →
      tool_get_sample_data { table_name := some tn } runner =
        run_query ("SELECT * FROM " ++ tn ++ " LIMIT 5") runner) ∧
    (sanitizedOk tn = true ↔
      (specTablePattern tn = true ∧ tn.toList.any Char.isAlphanum = true)) := by
  refine ⟨rfl, ?_, ?_, sanitizedOk_iff tn⟩
  · intro hne hbad
    have he : tn.isEmpty = false := by
      cases h : tn.isEmpty
      · rfl
      · exact absurd ((String.isEmpty_iff tn).mp h) hne
    simp [tool_get_sample_data, he, hbad]
  · intro hok
    simp [tool_get_sample_data, sanitizedOk_ne_empty hok, hok]

/-- C3 witness: the amended theorem applied at `public.orders` (accepted)
and `orders--` (rejected without contacting the data source). -/
theorem C3_sanitization_amended_witness :
    tool_get_sample_data { table_name := some "public.orders" } demoRunner =
      run_query ("SELECT * FROM " ++ "public.orders" ++ " LIMIT 5") demoRunner ∧
    tool_get_sample_data { table_name := some "orders--" } demoRunner =
      (ToolOutcome.err "Invalid table name", []) ∧
    (sanitizedOk "orders" = true ∧ sanitizedOk "order_items" = true ∧
      sanitizedOk "orders; DROP TABLE x" = false) :=
  ⟨(C3_sanitization_amended "public.orders" demoRunner).2.2.1 (by decide),
   (C3_sanitization_amended "orders--" demoRunner).2.1 (by decide) (by decide),
   by decide, by decide, by decide⟩

/-- C4: results with more than 100 rows are truncated to exactly the first
100 rows with `truncated = true`; results with at most 100 rows (or no
`rows` key) are returned unchanged, with no truncated flag set; and the
synchronous endpoint's truncation computes identically to the tool path. -/
theorem C4_result_truncation (d : PyData) (rs : List Row) :
    (d.rows = some rs → rs.length > 100 →
      (truncateTool d).rows = some (rs.take 100) ∧
      (rs.take 100).length = 100 ∧
      (truncateTool d).truncated = some true) ∧
    (d.rows = some rs → rs.length ≤ 100 → truncateTool d = d) ∧
    (d.rows = none → truncateTool d = d) ∧
    (∀ x : PyData, endpoint_truncate x = truncateTool x) := by
  refine ⟨?_, ?_, ?_, fun x => rfl⟩
  · intro h hl
    refine ⟨?_, ?_, ?_⟩ <;> simp [truncateTool, h, hl]
    omega
  · intro h hl
    have : ¬ rs.length > 100 := by omega
    simp [truncateTool, h, this]
  · intro h
    simp [truncateTool, h]

/-- C4 witness: a 101-row result is truncated to its first 100 rows with the
flag set. -/
theorem C4_result_truncation_witness :
    (truncateTool { rows := some (List.range 101) }).rows =
      some ((List.range 101).take 100) ∧
    ((List.range 101).take 100).length = 100 ∧
    (truncateTool { rows := some (List.range 101) }).truncated = some true :=
  (C4_result_truncation { rows := some (List.range 101) } (List.range 101)).1
    rfl (by simp)

theorem execute_query_unresolved (input : ToolInput) (schema : List STable)
    (approvals : List (String × Option String)) (runner : Runner)
    (h : approvals.lookup (pyStrip (input.query.getD "")) = none) :
    execute_tool "execute_query" input schema approvals runner =
      (ToolOutcome.requiresApproval (pyStrip (input.query.getD ""))
        (input.purpose.getD "Verify query results"), []) := by
  simp [execute_tool, execute_tool_body, h, pure, Except.pure]

theorem mem_turnToolCalls {turn : ModelTurn} {c : TCall}
    (h : c ∈ turnToolCalls turn) :
    CBlock.toolUse c.id c.name c.input ∈ turn.content := by
  rw [turnToolCalls, List.mem_filterMap] at h
  obtain ⟨b, hb, he⟩ := h
  cases b with
  | text s => simp at he
  | toolUse i n inp =>
    have : TCall.mk i n inp = c := by simpa using he
    subst this
    exact hb

/-- C1: for every dispatch of `execute_query`, an unresolved trimmed query
text returns `{requires_approval, query, purpose}` with the runner never
invoked; a rejection returns the rejected result with the runner never
invoked; an approved final text is the text that goes through the
query-execution path (the runner receives the limit-enforced stripped final
text, never the original). -/
theorem C1_execute_query_approval_gate (input : ToolInput) (schema : List STable)
    (approvals : List (String × Option String)) (runner : Runner) :
    (approvals.lookup (pyStrip (input.query.getD "")) = none →
      execute_tool "execute_query" input schema approvals runner =
        (ToolOutcome.requiresApproval (pyStrip (input.query.getD ""))
          (input.purpose.getD "Verify query results"), [])) ∧
    (approvals.lookup (pyStrip (input.query.getD "")) = some none →
      execute_tool "execute_query" input schema approvals runner =
        (ToolOutcome.rejectedQ "User rejected this query execution.", [])) ∧
    (∀ finalText,
      approvals.lookup (pyStrip (input.query.getD "")) = some (some finalText) →
      execute_tool "execute_query" input schema approvals runner =
        tool_execute_query { query := some finalText } runner ∧
      (tool_execute_query { query := some finalText } runner).2 =
        (if (pyStrip finalText).isEmpty then []
         else [tool_enforce_limit (pyStrip finalText)])) := by
  refine ⟨?_, ?_, ?_⟩
  · exact execute_query_unresolved input schema approvals runner
  · intro h
    simp [execute_tool, execute_tool_body, h, pure, Except.pure]
  · intro finalText h
    constructor
    · simp [execute_tool, execute_tool_body, h, pure, Except.pure]
    · cases he : (pyStrip finalText).isEmpty <;>
        simp [tool_execute_query, he, run_query]

/-- C1 witness: the gate at a never-seen query, a rejected query, and an
approved (edited) query, each with a concrete runner. -/
theorem C1_execute_query_approval_gate_witness :
    execute_tool "execute_query" { query := some " select 1 " } [] [] demoRunner =
      (ToolOutcome.requiresApproval "select 1" "Verify query results", []) ∧
    execute_tool "execute_query" { query := some "select 1" } []
        [("select 1", none)] demoRunner =
      (ToolOutcome.rejectedQ "User rejected this query execution.", []) ∧
    execute_tool "execute_query" { query := some "select 1" } []
        [("select 1", some "select 2")] demoRunner =
      tool_execute_query { query := some "select 2" } demoRunner ∧
    (tool_execute_query { query := some "select 2" } demoRunner).2 =
      [tool_enforce_limit (pyStrip "select 2")] := by
  refine ⟨?_, ?_, ?_, ?_⟩
  · exact (C1_execute_query_approval_gate { query := some " select 1 " } [] []
      demoRunner).1 (by decide)
  · exact (C1_execute_query_approval_gate { query := some "select 1" } []
      [("select 1", none)] demoRunner).2.1 (by decide)
  · exact ((C1_execute_query_approval_gate { query := some "select 1" } []
      [("select 1", some "select 2")] demoRunner).2.2 "select 2" (by decide)).1
  · have h := ((C1_execute_query_approval_gate { query := some "select 1" } []
      [("select 1", some "select 2")] demoRunner).2.2 "select 2" (by decide)).2
    simpa using h

/-- C7: tool dispatch never raises past its boundary — any raise inside the
dispatch body surfaces as an `{error: message}` result; an unrecognized
tool name yields `{error: "Unknown tool: <name>"}`; a raise from the query
runner is captured by `_run_query` as `{error: message}` (with the runner
having been invoked); a raise inside the `get_schema` handler is captured
at the dispatch boundary. -/
theorem C7_dispatch_no_raise (name : String) (input : ToolInput)
    (schema : List STable) (approvals : List (String × Option String))
    (runner : Runner) :
    (∀ e, execute_tool_body name input schema approvals runner = Except.error e →
      execute_tool name input schema approvals runner = (ToolOutcome.err e, [])) ∧
    (name ≠ "get_schema" → name ≠ "get_sample_data" → name ≠ "execute_query" →
      execute_tool name input schema approvals runner =
        (ToolOutcome.err ("Unknown tool: " ++ name), [])) ∧
    (∀ q m, runner q = Except.error m →
      run_query q runner = (ToolOutcome.err m, [q])) ∧
    (∀ e, tool_get_schema input schema = Except.error e →
      execute_tool "get_schema" input schema approvals runner =
        (ToolOutcome.err e, [])) := by
  refine ⟨?_, ?_, ?_, ?_⟩
  · intro e h
    simp [execute_tool, h]
  · intro h1 h2 h3
    simp [execute_tool, execute_tool_body, h1, h2, h3, pure, Except.pure]
  · intro q m h
    simp [run_query, run_query_body, h, bind, Except.bind]
  · intro e h
    simp [execute_tool, execute_tool_body, h, bind, Except.bind]

/-- C7 witness: an unknown tool name is answered with an error result, and a
raising runner is captured by `_run_query` as an error result. -/
theorem C7_dispatch_no_raise_witness :
    execute_tool "drop_table" { query := some "x" } [] [] demoRunner =
      (ToolOutcome.err ("Unknown tool: " ++ "drop_table"), []) ∧
    run_query "SELECT 1" raisingRunner = (ToolOutcome.err "boom", ["SELECT 1"]) := by
  refine ⟨?_, ?_⟩
  · exact (C7_dispatch_no_raise "drop_table" { query := some "x" } [] []
      demoRunner).2.1 (by decide) (by decide) (by decide)
  · exact (C7_dispatch_no_raise "q" { query := some "x" } [] []
      raisingRunner).2.2.1 "SELECT 1" "boom" rfl

/-- C5: the streaming loop dispatches tools with `pending_approvals` left at
its default, so every `execute_query` dispatched from the loop — regardless
of history — returns `{requires_approval, ...}` and never reaches the query
runner; if a turn's tool calls are all `execute_query`, the turn contributes
no runner invocation and every emitted `tool_result` carries a
`requires_approval` result. -/
theorem C5_loop_requires_approval (schema : List STable) (runner : Runner)
    (turn : ModelTurn) (msgs : List Message) :
    (∀ c : TCall, c.name = "execute_query" →
      loopDispatch schema runner c =
        (ToolOutcome.requiresApproval (pyStrip (c.input.query.getD ""))
          (c.input.purpose.getD "Verify query results"), [])) ∧
    ((∀ c ∈ turnToolCalls turn, c.name = "execute_query") →
      (processTurn schema runner turn msgs).log = [] ∧
      (∀ t r, Event.toolResult t r ∈ (processTurn schema runner turn msgs).events →
        t = "execute_query" ∧ ∃ q p, r = ToolOutcome.requiresApproval q p)) := by
  have hdisp : ∀ c : TCall, c.name = "execute_query" →
      loopDispatch schema runner c =
        (ToolOutcome.requiresApproval (pyStrip (c.input.query.getD ""))
          (c.input.purpose.getD "Verify query results"), []) := by
    intro c h
    rw [loopDispatch, h]
    exact execute_query_unresolved c.input schema [] runner rfl
  refine ⟨hdisp, ?_⟩
  intro hall
  by_cases he : turnToolCalls turn = []
  · constructor
    · simp [processTurn, he]
    · intro t r hev
      simp [processTurn, he] at hev
  · have hne : (turnToolCalls turn).isEmpty = false := by simp [he]
    constructor
    · simp only [processTurn, hne, Bool.false_eq_true, if_false, List.map_map]
      rw [List.flatten_eq_nil_iff]
      intro l hl
      rw [List.mem_map] at hl
      obtain ⟨c, hc, hlc⟩ := hl
      rw [← hlc]
      have := hdisp c (hall c hc)
      simp [Function.comp, this]
    · intro t r hev
      simp only [processTurn, hne, Bool.false_eq_true, if_false,
        List.map_map, List.mem_map, Function.comp] at hev
      obtain ⟨c, hc, heq⟩ := hev
      have hd := hdisp c (hall c hc)
      rw [hd] at heq
      have h1 : t = "execute_query" := by
        have := congrArg (fun ev => match ev with
          | Event.toolResult t _ => t
          | _ => "") heq
        simpa [hall c hc] using this.symm
      have h2 : r = ToolOutcome.requiresApproval (pyStrip (c.input.query.getD ""))
          (c.input.purpose.getD "Verify query results") := by
        have := congrArg (fun ev => match ev with
          | Event.toolResult _ r => r
          | _ => ToolOutcome.err "") heq
        simpa using this.symm
      exact ⟨h1, _, _, h2⟩

/-- C5 witness: a turn consisting of one repeated `execute_query` call is
dispatched to `requires_approval` with an empty runner log. -/
theorem C5_loop_requires_approval_witness :
    loopDispatch [] demoRunner ⟨"t1", "execute_query", { query := some "select 9" }⟩ =
      (ToolOutcome.requiresApproval (pyStrip "select 9") "Verify query results", []) ∧
    (processTurn [] demoRunner
      ⟨[CBlock.toolUse "t1" "execute_query" { query := some "select 9" },
        CBlock.toolUse "t2" "execute_query" { query := some "select 9" }],
       ⟨1, 2⟩⟩ []).log = [] := by
  constructor
  · have h := (C5_loop_requires_approval [] demoRunner
      ⟨[], ⟨0, 0⟩⟩ []).1
      ⟨"t1", "execute_query", { query := some "select 9" }⟩ rfl
    simpa using h
  · exact ((C5_loop_requires_approval [] demoRunner
      ⟨[CBlock.toolUse "t1" "execute_query" { query := some "select 9" },
        CBlock.toolUse "t2" "execute_query" { query := some "select 9" }],
       ⟨1, 2⟩⟩ []).2 (by decide)).1

/-- C6: a finalized turn with no tool-use blocks yields exactly one `done`
event carrying the usage totals and terminates the loop with no tool
dispatched; a turn with tool-use blocks yields one `tool_result` event per
call in call order, and extends the conversation with exactly one assistant
message holding the verbatim turn content followed by one user message
whose tool-result blocks carry the originating call ids, each referencing a
`ToolUse` id present in the turn content appended just before. -/
theorem C6_turn_processing (schema : List STable) (runner : Runner)
    (turn : ModelTurn) (msgs : List Message) :
    (turnToolCalls turn = [] →
      processTurn schema runner turn msgs =
        ⟨[Event.doneEv turn.usage], msgs, [], false⟩ ∧
      ∀ rest, genLoop schema runner (turn :: rest) msgs =
        ([Event.doneEv turn.usage], msgs, [])) ∧
    (turnToolCalls turn ≠ [] →
      (processTurn schema runner turn msgs).events =
        (turnToolCalls turn).map
          (fun c => Event.toolResult c.name (loopDispatch schema runner c).1) ∧
      (processTurn schema runner turn msgs).msgs =
        msgs ++ [⟨Role.assistant, MsgContent.blocks turn.content⟩,
                 ⟨Role.user, MsgContent.toolResults
                   ((turnToolCalls turn).map
                     (fun c => ⟨c.id, (loopDispatch schema runner c).1⟩))⟩] ∧
      (processTurn schema runner turn msgs).cont = true ∧
      ∀ b ∈ ((turnToolCalls turn).map
          (fun c => (⟨c.id, (loopDispatch schema runner c).1⟩ : ToolResultBlock))),
        ∃ n inp, CBlock.toolUse b.tool_use_id n inp ∈ turn.content) := by
  constructor
  · intro h
    have hp : processTurn schema runner turn msgs =
        ⟨[Event.doneEv turn.usage], msgs, [], false⟩ := by
      simp [processTurn, h]
    refine ⟨hp, fun rest => ?_⟩
    simp [genLoop, hp]
  · intro h
    have hne : (turnToolCalls turn).isEmpty = false := by simp [h]
    refine ⟨?_, ?_, ?_, ?_⟩
    · simp [processTurn, hne, List.map_map, Function.comp]
    · simp [processTurn, hne, List.map_map, Function.comp]
    · simp [processTurn, hne]
    · intro b hb
      rw [List.mem_map] at hb
      obtain ⟨c, hc, hbc⟩ := hb
      rw [← hbc]
      exact ⟨c.name, c.input, mem_turnToolCalls hc⟩

/-- C6 witness: a tool-free turn, and a two-call turn whose events, appended
messages and id references are as stated. -/
theorem C6_turn_processing_witness :
    processTurn [] demoRunner ⟨[CBlock.text "hi"], ⟨3, 4⟩⟩ [] =
      ⟨[Event.doneEv ⟨3, 4⟩], [], [], false⟩ ∧
    (processTurn [] demoRunner
      ⟨[CBlock.toolUse "t1" "get_schema" { tables := some [] },
        CBlock.toolUse "t2" "execute_query" { query := some "select 1" }],
       ⟨5, 6⟩⟩ []).cont = true := by
  constructor
  · exact ((C6_turn_processing [] demoRunner ⟨[CBlock.text "hi"], ⟨3, 4⟩⟩ []).1
      (by decide)).1
  · exact ((C6_turn_processing [] demoRunner
      ⟨[CBlock.toolUse "t1" "get_schema" { tables := some [] },
        CBlock.toolUse "t2" "execute_query" { query := some "select 1" }],
       ⟨5, 6⟩⟩ []).2 (by decide)).2.2.1

/-- C8: the schema formatter renders one entry per table, joined by
newlines; each entry lists at most the first 10 rendered columns and, when
columns were omitted, ends with a marker naming the omitted count; an empty
schema renders exactly `No schema available.`. -/
theorem C8_schema_format (schema : List STable) (t : STable) :
    (schema = [] → format_schema_for_context schema = "No schema available.") ∧
    (schema ≠ [] → format_schema_for_context schema =
      String.intercalate "\n" (schema.map formatTableLine)) ∧
    ((colListFmt t.columns).length ≤ 10 →
      formatTableLine t = "- " ++ (t.name?.getD "unknown") ++ ": " ++
        String.intercalate ", " (colListFmt t.columns)) ∧
    ((colListFmt t.columns).length > 10 →
      formatTableLine t = "- " ++ (t.name?.getD "unknown") ++ ": " ++
        String.intercalate ", " ((colListFmt t.columns).take 10) ++
        " ... and " ++ toString ((colListFmt t.columns).length - 10) ++
        " more columns" ∧
      ((colListFmt t.columns).take 10).length = 10 ∧
      (colListFmt t.columns).length - 10 =
        ((colListFmt t.columns).drop 10).length) := by
  refine ⟨?_, ?_, ?_, ?_⟩
  · intro h
    simp [format_schema_for_context, h]
  · intro h
    simp [format_schema_for_context, h]
  · intro h
    have : ¬ (colListFmt t.columns).length > 10 := by omega
    simp [formatTableLine, this, List.take_of_length_le h]
  · intro h
    refine ⟨?_, ?_, ?_⟩
    · simp [formatTableLine, h]
    · simp [List.length_take]
      omega
    · simp [List.length_drop]

/-- C8 witness: a 12-column table renders its first 10 columns and a
`... and 2 more columns` marker; the empty schema renders the fixed
string. -/
theorem C8_schema_format_witness :
    format_schema_for_context [] = "No schema available." ∧
    formatTableLine ⟨some "t",
        Columns.listCols ((List.range 12).map
          (fun i => ColEntry.strCol ("c" ++ toString i)))⟩ =
      "- " ++ "t" ++ ": " ++
        String.intercalate ", " ((colListFmt (Columns.listCols
          ((List.range 12).map
            (fun i => ColEntry.strCol ("c" ++ toString i))))).take 10) ++
        " ... and " ++ toString ((colListFmt (Columns.listCols
          ((List.range 12).map
            (fun i => ColEntry.strCol ("c" ++ toString i))))).length - 10) ++
        " more columns" := by
  constructor
  · exact (C8_schema_format [] ⟨none, Columns.listCols []⟩).1 rfl
  · exact ((C8_schema_format [] ⟨some "t",
      Columns.listCols ((List.range 12).map
        (fun i => ColEntry.strCol ("c" ++ toString i)))⟩).2.2.2 (by decide)).1

/-- The spec's "underlying name/type content" of a `columns` value: the
optional name and optional type carried by each column entry, independent
of representation shape. -/
def colContent : Columns → List (Option String × Option String)
  | Columns.dictCols l => l.map (fun p => (some p.1, p.2.ctype))
  | Columns.listCols l =>
    l.map (fun c =>
      match c with
      | ColEntry.strCol s => (some s, none)
      | ColEntry.recCol n t => (n, t))
  | Columns.otherCols _ => []

/-- True when a list-shaped `columns` value has no plain-string entry. -/
def noPlainStrCols : Columns → Bool
  | Columns.listCols l =>
    l.all (fun c =>
      match c with
      | ColEntry.strCol _ => false
      | _ => true)
  | _ => true

theorem colPairsTool_eq_content (c : Columns) :
    colPairsTool c = (colContent c).map
      (fun p => (p.1.getD "unknown", p.2.getD "unknown")) := by
  cases c with
  | dictCols l => simp [colPairsTool, colContent, List.map_map, Function.comp]
  | listCols l =>
    simp only [colPairsTool, colContent, List.map_map]
    apply List.map_congr_left
    intro x _
    cases x <;> rfl
  | otherCols t => rfl

theorem colListFmt_eq_content {c : Columns} (h : noPlainStrCols c = true) :
    colListFmt c = (colContent c).map
      (fun p => (p.1.getD "?") ++ " (" ++ (p.2.getD "?") ++ ")") := by
  cases c with
  | dictCols l => simp [colListFmt, colContent, List.map_map, Function.comp]
  | listCols l =>
    simp only [colListFmt, colContent, List.map_map]
    apply List.map_congr_left
    intro x hx
    rw [noPlainStrCols, List.all_eq_true] at h
    cases x with
    | strCol s => exact absurd (h _ hx) (by simp)
    | recCol n t => rfl
  | otherCols t => rfl

/-- C9 counterexample: a plain-string column and a name/type record carrying
the same underlying content (name `id`, no type) render differently in the
schema context formatter — `id` versus `id (?)` — so the formatter is not
shape-invariant across the three representations. -/
theorem C9_shape_invariance_counterexample :
    colContent (Columns.listCols [ColEntry.strCol "id"]) =
      colContent (Columns.listCols [ColEntry.recCol (some "id") none]) ∧
    colListFmt (Columns.listCols [ColEntry.strCol "id"]) ≠
      colListFmt (Columns.listCols [ColEntry.recCol (some "id") none]) ∧
    format_schema_for_context
        [⟨some "t", Columns.listCols [ColEntry.strCol "id"]⟩] ≠
      format_schema_for_context
        [⟨some "t", Columns.listCols [ColEntry.recCol (some "id") none]⟩] := by
  refine ⟨by decide, by decide, by decide⟩

/-- C9 (amended): the `get_schema` tool's rendering is shape-invariant —
equal underlying content gives equal name/type pairs across all three
column representations (absent names and types render as `unknown`, a plain
string denotes a name of unknown type); the context formatter is
shape-invariant only between the mapping and record representations (absent
values render as `?`), a plain-string entry rendering as the bare name. -/
theorem C9_shape_invariance_amended (c1 c2 : Columns) :
    (colContent c1 = colContent c2 → colPairsTool c1 = colPairsTool c2) ∧
    (noPlainStrCols c1 = true → noPlainStrCols c2 = true →
      colContent c1 = colContent c2 → colListFmt c1 = colListFmt c2) := by
  constructor
  · intro h
    rw [colPairsTool_eq_content, colPairsTool_eq_content, h]
  · intro h1 h2 h
    rw [colListFmt_eq_content h1, colListFmt_eq_content h2, h]

/-- C9 witness: a mapping-shaped and a record-shaped column list with equal
content render identically in both the tool and the formatter. -/
theorem C9_shape_invariance_amended_witness :
    colPairsTool (Columns.dictCols [("id", ⟨some "integer"⟩)]) =
      colPairsTool (Columns.listCols [ColEntry.recCol (some "id") (some "integer")]) ∧
    colListFmt (Columns.dictCols [("id", ⟨some "integer"⟩)]) =
      colListFmt (Columns.listCols [ColEntry.recCol (some "id") (some "integer")]) :=
  ⟨(C9_shape_invariance_amended (Columns.dictCols [("id", ⟨some "integer"⟩)])
      (Columns.listCols [ColEntry.recCol (some "id") (some "integer")])).1
      (by decide),
   (C9_shape_invariance_amended (Columns.dictCols [("id", ⟨some "integer"⟩)])
      (Columns.listCols [ColEntry.recCol (some "id") (some "integer")])).2
      (by decide) (by decide) (by decide)⟩

mutual
theorem jsonDumps_isOk_eq (v : JVal) : (jsonDumps v).isOk = noOther v := by
  cases v with
  | jarr l =>
    have h1 := jsonDumpsArr_isOk_eq l
    cases h : jsonDumpsArr l with
    | ok parts =>
      rw [h] at h1
      simp only [jsonDumps, h, noOther]
      simpa using h1
    | error e =>
      rw [h] at h1
      simp only [jsonDumps, h, noOther]
      simpa using h1
  | jobj o =>
    have h1 := jsonDumpsObj_isOk_eq o
    cases h : jsonDumpsObj o with
    | ok parts =>
      rw [h] at h1
      simp only [jsonDumps, h, noOther]
      simpa using h1
    | error e =>
      rw [h] at h1
      simp only [jsonDumps, h, noOther]
      simpa using h1
  | jnull => rfl
  | jbool b => rfl
  | jnum rep => rfl
  | jstr s => rfl
  | jdatetime iso => rfl
  | jdate iso => rfl
  | jdecimal r => rfl
  | jother t => rfl

theorem jsonDumpsArr_isOk_eq (l : JArr) : (jsonDumpsArr l).isOk = noOtherArr l := by
  cases l with
  | nil => rfl
  | cons v tl =>
    have h1 := jsonDumps_isOk_eq v
    have h2 := jsonDumpsArr_isOk_eq tl
    cases hv : jsonDumps v with
    | ok s =>
      rw [hv] at h1
      have hh1 : noOther v = true := by simpa using h1.symm
      cases ht : jsonDumpsArr tl with
      | ok rest =>
        rw [ht] at h2
        have hh2 : noOtherArr tl = true := by simpa using h2.symm
        simp [jsonDumpsArr, hv, ht, noOtherArr, bind, Except.bind,
          Except.isOk, Except.toBool, hh1, hh2]
      | error e =>
        rw [ht] at h2
        have hh2 : noOtherArr tl = false := by simpa using h2.symm
        simp [jsonDumpsArr, hv, ht, noOtherArr, bind, Except.bind,
          Except.isOk, Except.toBool, hh2]
    | error e =>
      rw [hv] at h1
      have hh1 : noOther v = false := by simpa using h1.symm
      simp [jsonDumpsArr, hv, noOtherArr, bind, Except.bind,
        Except.isOk, Except.toBool, hh1]

theorem jsonDumpsObj_isOk_eq (o : JObj) : (jsonDumpsObj o).isOk = noOtherObj o := by
  cases o with
  | nil => rfl
  | cons k v tl =>
    have h1 := jsonDumps_isOk_eq v
    have h2 := jsonDumpsObj_isOk_eq tl
    cases hv : jsonDumps v with
    | ok s =>
      rw [hv] at h1
      have hh1 : noOther v = true := by simpa using h1.symm
      cases ht : jsonDumpsObj tl with
      | ok rest =>
        rw [ht] at h2
        have hh2 : noOtherObj tl = true := by simpa using h2.symm
        simp [jsonDumpsObj, hv, ht, noOtherObj, bind, Except.bind,
          Except.isOk, Except.toBool, hh1, hh2]
      | error e =>
        rw [ht] at h2
        have hh2 : noOtherObj tl = false := by simpa using h2.symm
        simp [jsonDumpsObj, hv, ht, noOtherObj, bind, Except.bind,
          Except.isOk, Except.toBool, hh2]
    | error e =>
      rw [hv] at h1
      have hh1 : noOther v = false := by simpa using h1.symm
      simp [jsonDumpsObj, hv, noOtherObj, bind, Except.bind,
        Except.isOk, Except.toBool, hh1]
end

/-- C10: the SSE encoder emits exactly `event: <type>\ndata: <json>\n\n`
whenever the payload serializes; a payload serializes exactly when it
contains no non-serializable (`jother`) node, and otherwise the encode
fails; datetime and date values render as their ISO strings, `Decimal`
values render as (floating-point) numbers, both in `json_serializer` and in
the serialization itself. -/
theorem C10_sse_encode (event_type : String) (data : JVal) :
    (∀ j, jsonDumps data = Except.ok j →
      create_sse_event event_type data =
        Except.ok ("event: " ++ event_type ++ "\ndata: " ++ j ++ "\n\n")) ∧
    ((∃ j, jsonDumps data = Except.ok j) ↔ noOther data = true) ∧
    (noOther data = false → ∃ e, create_sse_event event_type data = Except.error e) ∧
    (∀ iso, jsonDumps (JVal.jdatetime iso) = jsonDumps (JVal.jstr iso) ∧
      json_serializer (JVal.jdatetime iso) = Except.ok (JVal.jstr iso)) ∧
    (∀ iso, jsonDumps (JVal.jdate iso) = jsonDumps (JVal.jstr iso) ∧
      json_serializer (JVal.jdate iso) = Except.ok (JVal.jstr iso)) ∧
    (∀ r, jsonDumps (JVal.jdecimal r) = jsonDumps (JVal.jnum r) ∧
      json_serializer (JVal.jdecimal r) = Except.ok (JVal.jnum r)) ∧
    (∀ t, jsonDumps (JVal.jother t) =
      Except.error ("Object of type " ++ t ++ " is not JSON serializable")) := by
  refine ⟨?_, ?_, ?_, fun iso => ⟨rfl, rfl⟩, fun iso => ⟨rfl, rfl⟩,
    fun r => ⟨rfl, rfl⟩, fun t => rfl⟩
  · intro j h
    simp [create_sse_event, h]
  · constructor
    · rintro ⟨j, hj⟩
      have := jsonDumps_isOk_eq data
      rw [hj] at this
      simpa using this.symm
    · intro h
      have := jsonDumps_isOk_eq data
      rw [h] at this
      cases hj : jsonDumps data with
      | ok j => exact ⟨j, rfl⟩
      | error e =>
        rw [hj] at this
        simp [Except.isOk, Except.toBool] at this
  · intro h
    have := jsonDumps_isOk_eq data
    rw [h] at this
    cases hj : jsonDumps data with
    | ok j =>
      rw [hj] at this
      simp [Except.isOk, Except.toBool] at this
    | error e =>
      exact ⟨e, by simp [create_sse_event, hj]⟩

/-- C10 witness: a concrete `done` payload is framed exactly; a payload
holding a non-serializable value fails the encode. -/
theorem C10_sse_encode_witness :
    create_sse_event "done" (JVal.jobj (JObj.cons "usage" (JVal.jnum "42") JObj.nil)) =
      Except.ok ("event: " ++ "done" ++ "\ndata: " ++
        "\x7b\"usage\": 42\x7d" ++ "\n\n") ∧
    (∃ e, create_sse_event "done" (JVal.jarr (JArr.cons (JVal.jother "set") JArr.nil)) =
      Except.error e) := by
  constructor
  · exact (C10_sse_encode "done"
      (JVal.jobj (JObj.cons "usage" (JVal.jnum "42") JObj.nil))).1
      "\x7b\"usage\": 42\x7d" rfl
  · exact (C10_sse_encode "done"
      (JVal.jarr (JArr.cons (JVal.jother "set") JArr.nil))).2.2.1 rfl

end RedashAI
